import Mathlib

set_option maxRecDepth 4000

/-
Shallow embedding of the ip-geolocation service core:
  - app/infrastructure/ip_geolocation_repository.py (IpGeolocationRepositoryImpl)
  - app/application/geolocation_service.py (GeolocationApplicationService)
  - app/infrastructure/ipstack_geolocation_service.py (IpStackGeolocationService)
  - app/interfaces/api/routes/v1/geolocation_router.py (domain_validator)

Conventions of the embedding:
  - timestamps are Nat clock ticks; the database column defaults
    (models.py BaseModel: created_at / updated_at default now) read a clock
    value passed to each call;
  - JSON numbers are carried as Int (no arithmetic is ever performed on them);
  - a pydantic model instance is a value record plus the list of fields that
    were explicitly set at construction (pydantic model_fields_set), which is
    what model_dump with exclude_unset reads;
  - Postgres row visibility: the xmax system column of a row returned by
    INSERT .. ON CONFLICT DO UPDATE .. RETURNING is 0 when the row was
    freshly inserted and the updating transaction id (nonzero) when the
    conflict branch fired; the statement is a single atomic conflict-resolving
    action at the storage engine;
  - a Python exception raised inside a repository session is injected
    through an explicit fault parameter: connection/operational errors
    (the CONNECTION_ERRORS tuple) and unclassified exceptions are the two
    kinds the handlers distinguish.
-/

/-- Result tag of the repository upsert (UpsertResult in app/domain/repositories.py). -/
inductive UpsertResult where
  | CREATED
  | UPDATED
deriving DecidableEq, Repr

/-- Errors surfaced by the embedded layers. dbUnavailable is
DatabaseUnavailableError, rawExc an unclassified Python exception propagating
unwrapped, valueErr the ValueError raised by update on a missing record,
lookupErr IpGeolocationServiceError, notFoundGeo NotFoundGeolocationData. -/
inductive Err where
  | dbUnavailable
  | rawExc (name : String)
  | valueErr
  | lookupErr
  | notFoundGeo
deriving DecidableEq, Repr

/-- Field names of the Geolocation pydantic model (app/domain/models/ip_data.py),
used as the keys of model_dump payloads. -/
inductive GeoField where
  | ip
  | url
  | latitude
  | longitude
  | city
  | region
  | country
  | continent
  | postal_code
  | created_at
  | updated_at
deriving DecidableEq, Repr

/-- The values of a Geolocation record / of an ip_geolocation table row
(models.py IpGeolocation, minus the surrogate uuid id). -/
structure GeoData where
  ip : String
  url : Option String
  latitude : Option Int
  longitude : Option Int
  city : Option String
  region : Option String
  country : Option String
  continent : Option String
  postal_code : Option String
  created_at : Nat
  updated_at : Nat
deriving DecidableEq, Repr

/-- A pydantic Geolocation instance: the field values together with
model_fields_set (the fields explicitly passed at construction). -/
structure Geolocation where
  data : GeoData
  fieldsSet : List GeoField
deriving DecidableEq, Repr

/-- A persisted row of the ip_geolocation table. -/
abbrev Row := GeoData

/-- The database state: the table rows plus a connectivity flag (false means
any round trip raises an operational/connection error). -/
structure DB where
  rows : List Row
  avail : Bool
deriving DecidableEq, Repr

/-- SELECT .. WHERE ip = .. (first matching row). -/
def findRow : List Row → String → Option Row
  | [], _ => none
  | r :: rs, ip => if r.ip = ip then some r else findRow rs ip

/-- UPDATE of the row(s) whose ip matches (ip is unique, so at most one). -/
def replaceRow : List Row → String → Row → List Row
  | [], _, _ => []
  | r :: rs, ip, nr =>
      if r.ip = ip then nr :: replaceRow rs ip nr else r :: replaceRow rs ip nr

/-- Number of rows stored for an ip. -/
def countIp : List Row → String → Nat
  | [], _ => 0
  | r :: rs, ip => (if r.ip = ip then 1 else 0) + countIp rs ip

/-- An exception raised inside a repository database session: either one of
the recognized CONNECTION_ERRORS (asyncpg/socket/OSError/Operational/Integrity)
or an unclassified exception identified by its Python type name. -/
inductive PyExc where
  | connErr
  | otherExc (name : String)
deriving DecidableEq, Repr

namespace IpGeolocationRepositoryImpl

/-- Payload keys of ip_data.model_dump(exclude_unset=True) (upsert line 52). -/
def payloadKeys (g : Geolocation) : List GeoField :=
  g.fieldsSet

/-- Keys of values_for_insert: the payload minus created_at/updated_at
(upsert lines 54-56): the stripped timestamp columns fall back to their
column defaults (now) at insert time. -/
def valuesForInsertKeys (g : Geolocation) : List GeoField :=
  (payloadKeys g).filter
    (fun k => decide (k ≠ GeoField.created_at ∧ k ≠ GeoField.updated_at))

/-- Keys of the ON CONFLICT DO UPDATE set clause: the payload minus
id/ip/created_at/updated_at (upsert lines 60-64). -/
def setClauseKeys (g : Geolocation) : List GeoField :=
  (payloadKeys g).filter
    (fun k =>
      decide (k ≠ GeoField.ip ∧ k ≠ GeoField.created_at ∧ k ≠ GeoField.updated_at))

/-- The row built by the INSERT branch: columns present in values_for_insert
take the record's value, absent columns take their defaults (null for the
nullable columns, the current clock for the two timestamps; ip is a required
pydantic field and is always part of the payload). -/
def insertRowFromPayload (g : Geolocation) (t : Nat) : Row :=
  let keys := valuesForInsertKeys g
  { ip := g.data.ip
    url := if GeoField.url ∈ keys then g.data.url else none
    latitude := if GeoField.latitude ∈ keys then g.data.latitude else none
    longitude := if GeoField.longitude ∈ keys then g.data.longitude else none
    city := if GeoField.city ∈ keys then g.data.city else none
    region := if GeoField.region ∈ keys then g.data.region else none
    country := if GeoField.country ∈ keys then g.data.country else none
    continent := if GeoField.continent ∈ keys then g.data.continent else none
    postal_code := if GeoField.postal_code ∈ keys then g.data.postal_code else none
    created_at := t
    updated_at := t }

/-- The row produced by the conflict branch: the set-clause fields take the
excluded (incoming) values, every other column keeps the stored value; when
the set clause would be empty the statement writes ip := excluded.ip, which
leaves the row's content unchanged (upsert lines 66-73).  Note that neither
created_at nor updated_at is ever in the set clause, and the ORM-level
onupdate default of updated_at does not apply to ON CONFLICT DO UPDATE. -/
def applySetClause (old : Row) (g : Geolocation) : Row :=
  let keys := setClauseKeys g
  if keys = [] then old
  else
    { old with
      url := if GeoField.url ∈ keys then g.data.url else old.url
      latitude := if GeoField.latitude ∈ keys then g.data.latitude else old.latitude
      longitude := if GeoField.longitude ∈ keys then g.data.longitude else old.longitude
      city := if GeoField.city ∈ keys then g.data.city else old.city
      region := if GeoField.region ∈ keys then g.data.region else old.region
      country := if GeoField.country ∈ keys then g.data.country else old.country
      continent := if GeoField.continent ∈ keys then g.data.continent else old.continent
      postal_code :=
        if GeoField.postal_code ∈ keys then g.data.postal_code else old.postal_code }

/-- One atomic execution of INSERT .. ON CONFLICT (ip) DO UPDATE ..
RETURNING row, xmax: returns the new table contents, the returned row and
the xmax value of that row (0 on the insert branch, the nonzero updating
transaction id - represented by 1 - on the conflict branch). -/
def execUpsertStmt (rows : List Row) (g : Geolocation) (t : Nat) :
    List Row × Row × Nat :=
  match findRow rows g.data.ip with
  | none =>
      let r := insertRowFromPayload g t
      (rows ++ [r], r, 0)
  | some old =>
      let r := applySetClause old g
      (replaceRow rows g.data.ip r, r, 1)

/-- Geolocation.model_validate(db_obj, from_attributes=True): every model
field is populated from the row, so every field is set. -/
def modelValidate (r : Row) : Geolocation :=
  { data := r
    fieldsSet :=
      [GeoField.ip, GeoField.url, GeoField.latitude, GeoField.longitude,
       GeoField.city, GeoField.region, GeoField.country, GeoField.continent,
       GeoField.postal_code, GeoField.created_at, GeoField.updated_at] }

/-- IpGeolocationRepositoryImpl.upsert (lines 36-111).  The fault parameter
injects an exception raised during the session: a CONNECTION_ERRORS member is
wrapped into DatabaseUnavailableError (lines 104-107); any other exception is
rolled back and re-raised raw by the bare raise (lines 108-111).  An
unavailable database surfaces as a connection error at execute time.  The
outcome is computed from the xmax of the returned row (line 92). -/
def upsert (fault : Option PyExc) (db : DB) (g : Geolocation) (t : Nat) :
    Except Err (DB × Geolocation × UpsertResult) :=
  match fault with
  | some PyExc.connErr => Except.error Err.dbUnavailable
  | some (PyExc.otherExc n) => Except.error (Err.rawExc n)
  | none =>
      if db.avail then
        let out := execUpsertStmt db.rows g t
        let result :=
          if out.2.2 = 0 then UpsertResult.CREATED else UpsertResult.UPDATED
        Except.ok ({ db with rows := out.1 }, modelValidate out.2.1, result)
      else Except.error Err.dbUnavailable

/-- IpGeolocationRepositoryImpl.add (lines 113-139): a strict INSERT of
IpGeolocation(**ip_data.model_dump()) - the full dump passes every column
explicitly, timestamps included, overriding the column defaults.  Inserting
a duplicate ip violates the unique constraint: the IntegrityError is a
CONNECTION_ERRORS member and is wrapped into DatabaseUnavailableError. -/
def add (db : DB) (g : Geolocation) : Except Err (DB × Geolocation) :=
  if db.avail then
    match findRow db.rows g.data.ip with
    | some _ => Except.error Err.dbUnavailable
    | none =>
        let r := g.data
        Except.ok ({ db with rows := db.rows ++ [r] }, modelValidate r)
  else Except.error Err.dbUnavailable

/-- IpGeolocationRepositoryImpl.update (lines 141-176): loads the row by ip,
raises ValueError when absent (re-raised raw: ValueError is not in
CONNECTION_ERRORS), otherwise setattr's every key of ip_data.model_dump()
onto the row - including created_at and updated_at, whose explicit values
override the onupdate default.  The fault parameter injects a session
exception exactly as in upsert (lines 169-176). -/
def update (fault : Option PyExc) (db : DB) (g : Geolocation) :
    Except Err (DB × Geolocation) :=
  match fault with
  | some PyExc.connErr => Except.error Err.dbUnavailable
  | some (PyExc.otherExc n) => Except.error (Err.rawExc n)
  | none =>
      if db.avail then
        match findRow db.rows g.data.ip with
        | none => Except.error Err.valueErr
        | some _ =>
            let r := g.data
            Except.ok ({ db with rows := replaceRow db.rows g.data.ip r },
                       modelValidate r)
      else Except.error Err.dbUnavailable

/-- IpGeolocationRepositoryImpl.exists_by_ip (lines 178-200): SELECT by ip;
an OperationalError (database down) is wrapped into DatabaseUnavailableError. -/
def exists_by_ip (db : DB) (ip : String) : Except Err Bool :=
  if db.avail then Except.ok (findRow db.rows ip).isSome
  else Except.error Err.dbUnavailable

/-- IpGeolocationRepositoryImpl.is_available (lines 318-335): SELECT 1 round
trip; true iff the database answers. -/
def is_available (db : DB) : Bool :=
  db.avail

end IpGeolocationRepositoryImpl

/-- The mapped_data dictionary the lookup client would feed into the
Geolocation constructor: the eight location fields it passes explicitly
(ipstack_geolocation_service.py lines 88-98; url and the timestamps are
not among them). -/
structure LookupData where
  ip : String
  latitude : Option Int
  longitude : Option Int
  city : Option String
  region : Option String
  country : Option String
  continent : Option String
  postal_code : Option String
deriving DecidableEq, Repr

/-- Outcome of external_service.get_geolocation_by_ip as the application
service observes it: a record, None, or a raised IpGeolocationServiceError. -/
inductive ExtResult where
  | found (d : LookupData)
  | notFound
  | svcFail
deriving DecidableEq, Repr

/-- Geolocation(**mapped_data) at clock t: the eight passed fields enter
model_fields_set; url keeps its None default and the two timestamps take
their construction-time default_factory value (the current clock), all three
staying outside model_fields_set. -/
def mkLookupGeo (t : Nat) (d : LookupData) : Geolocation :=
  { data :=
      { ip := d.ip
        url := none
        latitude := d.latitude
        longitude := d.longitude
        city := d.city
        region := d.region
        country := d.country
        continent := d.continent
        postal_code := d.postal_code
        created_at := t
        updated_at := t }
    fieldsSet :=
      [GeoField.ip, GeoField.latitude, GeoField.longitude, GeoField.city,
       GeoField.region, GeoField.country, GeoField.continent,
       GeoField.postal_code] }

/-- Collaborator calls observable during one application-service execution. -/
inductive Event where
  | evLookup (ip : String)
  | evExistsIp (ip : String)
  | evAdd (ip : String)
  | evUpdate (ip : String)
  | evUpsert (ip : String)
  | evIsAvail
deriving DecidableEq, Repr

/-- Decidable equality for Except values, for evaluating concrete runs. -/
def decEqExcept {ε α : Type} [DecidableEq ε] [DecidableEq α] :
    DecidableEq (Except ε α)
  | Except.error e, Except.error f =>
      if h : e = f then isTrue (by rw [h])
      else isFalse (fun hh => h (Except.error.inj hh))
  | Except.error _, Except.ok _ => isFalse (fun hh => Except.noConfusion hh)
  | Except.ok _, Except.error _ => isFalse (fun hh => Except.noConfusion hh)
  | Except.ok a, Except.ok b =>
      if h : a = b then isTrue (by rw [h])
      else isFalse (fun hh => h (Except.ok.inj hh))

instance {ε α : Type} [DecidableEq ε] [DecidableEq α] :
    DecidableEq (Except ε α) :=
  decEqExcept

/-- Result of one application-service call: the returned value or raised
error, the database afterwards, and the trace of collaborator calls made. -/
structure SvcOut where
  result : Except Err Geolocation
  db : DB
  trace : List Event
deriving DecidableEq, Repr

namespace GeolocationApplicationService

/-- GeolocationApplicationService.add_ip_data (lines 68-98): calls the
external lookup first; raises NotFoundGeolocationData when it returns None;
otherwise checks exists_by_ip(ip_address) and either updates or strictly
adds (the add/update key is the ip carried by the looked-up record). -/
def add_ip_data (ext : ExtResult) (db : DB) (t : Nat) (ip : String) : SvcOut :=
  match ext with
  | ExtResult.svcFail =>
      { result := Except.error Err.lookupErr, db := db, trace := [Event.evLookup ip] }
  | ExtResult.notFound =>
      { result := Except.error Err.notFoundGeo, db := db, trace := [Event.evLookup ip] }
  | ExtResult.found d =>
      let g := mkLookupGeo t d
      match IpGeolocationRepositoryImpl.exists_by_ip db ip with
      | Except.error e =>
          { result := Except.error e, db := db
            trace := [Event.evLookup ip, Event.evExistsIp ip] }
      | Except.ok true =>
          match IpGeolocationRepositoryImpl.update none db g with
          | Except.error e =>
              { result := Except.error e, db := db
                trace := [Event.evLookup ip, Event.evExistsIp ip, Event.evUpdate ip] }
          | Except.ok (db', rec) =>
              { result := Except.ok rec, db := db'
                trace := [Event.evLookup ip, Event.evExistsIp ip, Event.evUpdate ip] }
      | Except.ok false =>
          match IpGeolocationRepositoryImpl.add db g with
          | Except.error e =>
              { result := Except.error e, db := db
                trace := [Event.evLookup ip, Event.evExistsIp ip, Event.evAdd ip] }
          | Except.ok (db', rec) =>
              { result := Except.ok rec, db := db'
                trace := [Event.evLookup ip, Event.evExistsIp ip, Event.evAdd ip] }

end GeolocationApplicationService

/-
Interleaving semantics for two concurrent callers.

Each add_ip_data execution is a sequence of atomic steps against the shared
database: the external lookup (no database access), the exists_by_ip SELECT,
and then one add or update statement.  A repository upsert, by contrast, is a
single INSERT .. ON CONFLICT statement: one atomic step, so two concurrent
upserts execute in one of the two sequential orders.
-/

/-- Per-thread input of one add_ip_data call. -/
structure ThreadInput where
  ext : ExtResult
  t : Nat
  ip : String
deriving DecidableEq, Repr

/-- Progress of one add_ip_data execution between its atomic steps. -/
inductive Phase where
  | start
  | looked (g : Geolocation)
  | checked (g : Geolocation) (b : Bool)
  | finished (r : Except Err Geolocation)
deriving DecidableEq, Repr

/-- One atomic step of an add_ip_data execution against the shared database. -/
def svcStep (inp : ThreadInput) (p : Phase) (db : DB) : Phase × DB :=
  match p with
  | Phase.start =>
      match inp.ext with
      | ExtResult.svcFail => (Phase.finished (Except.error Err.lookupErr), db)
      | ExtResult.notFound => (Phase.finished (Except.error Err.notFoundGeo), db)
      | ExtResult.found d => (Phase.looked (mkLookupGeo inp.t d), db)
  | Phase.looked g =>
      match IpGeolocationRepositoryImpl.exists_by_ip db inp.ip with
      | Except.error e => (Phase.finished (Except.error e), db)
      | Except.ok b => (Phase.checked g b, db)
  | Phase.checked g true =>
      match IpGeolocationRepositoryImpl.update none db g with
      | Except.error e => (Phase.finished (Except.error e), db)
      | Except.ok (db', r) => (Phase.finished (Except.ok r), db')
  | Phase.checked g false =>
      match IpGeolocationRepositoryImpl.add db g with
      | Except.error e => (Phase.finished (Except.error e), db)
      | Except.ok (db', r) => (Phase.finished (Except.ok r), db')
  | Phase.finished r => (Phase.finished r, db)

/-- Run two add_ip_data executions under a schedule: true picks a step of
thread one, false a step of thread two. -/
def runSched (i1 i2 : ThreadInput) : List Bool → Phase × Phase × DB → Phase × Phase × DB
  | [], s => s
  | b :: rest, (p1, p2, db) =>
      if b then
        let s1 := svcStep i1 p1 db
        runSched i1 i2 rest (s1.1, p2, s1.2)
      else
        let s2 := svcStep i2 p2 db
        runSched i1 i2 rest (p1, s2.1, s2.2)

/-- One repository upsert as the sequential composition sees it: the result
paired with the database left behind (the database is unchanged on an error,
the transaction having been rolled back). -/
def seqUpsert (db : DB) (g : Geolocation) (t : Nat) :
    Except Err (Geolocation × UpsertResult) × DB :=
  match IpGeolocationRepositoryImpl.upsert none db g t with
  | Except.ok (db', rec, res) => (Except.ok (rec, res), db')
  | Except.error e => (Except.error e, db)

/-- Two concurrent repository upserts: each is one atomic conflict-resolving
statement, so the pair executes in one of the two orders, chosen by oneFirst. -/
def runUpsertPair (db : DB) (g1 : Geolocation) (t1 : Nat) (g2 : Geolocation)
    (t2 : Nat) (oneFirst : Bool) :
    Except Err (Geolocation × UpsertResult) ×
      Except Err (Geolocation × UpsertResult) × DB :=
  if oneFirst then
    let a := seqUpsert db g1 t1
    let b := seqUpsert a.2 g2 t2
    (a.1, b.1, b.2)
  else
    let b := seqUpsert db g2 t2
    let a := seqUpsert b.2 g1 t1
    (a.1, b.1, a.2)

/-- A JSON scalar as the provider returns it. -/
inductive JVal where
  | jstr (s : String)
  | jnum (n : Int)
  | jnull
deriving DecidableEq, Repr

/-- Python truthiness of an optional JSON scalar, as tested by
`not data.get(field)`: absent, null, empty string and zero are falsy. -/
def truthy : Option JVal → Bool
  | none => false
  | some JVal.jnull => false
  | some (JVal.jstr s) => decide (s ≠ "")
  | some (JVal.jnum n) => decide (n ≠ 0)

/-- The provider's 200 response body as the client reads it: whether the
"error" envelope key is present, plus the fields the client looks up
(ipstack field naming: region_name, country_name, continent_name, zip). -/
structure ProviderResp where
  hasErrorKey : Bool
  ip : Option JVal
  latitude : Option JVal
  longitude : Option JVal
  city : Option JVal
  region_name : Option JVal
  country_name : Option JVal
  continent_name : Option JVal
  zip : Option JVal
deriving DecidableEq, Repr

/-- data.get(field) for the three required field names. -/
def getRequired (d : ProviderResp) : String → Option JVal
  | "ip" => d.ip
  | "latitude" => d.latitude
  | "longitude" => d.longitude
  | _ => none

/-- Errors raised by the lookup client (all are IpGeolocationServiceError):
the provider error envelope, a missing-required-fields response, a
non-success HTTP status (carrying the status), or a network failure. -/
inductive LookupErr where
  | apiErr
  | invalidResp (missing : List String)
  | httpFail (status : Nat)
  | netErr
deriving DecidableEq, Repr

/-- The mapped_data dictionary built on success (lines 88-98). -/
structure MappedData where
  ip : Option JVal
  latitude : Option JVal
  longitude : Option JVal
  city : Option JVal
  region : Option JVal
  country : Option JVal
  continent : Option JVal
  postal_code : Option JVal
deriving DecidableEq, Repr

namespace IpStackGeolocationService

/-- The `[field for field in required_fields if not data.get(field)]`
comprehension (lines 80-81). -/
def missingFields (d : ProviderResp) : List String :=
  (["ip", "latitude", "longitude"]).filter (fun f => !(truthy (getRequired d f)))

/-- IpStackGeolocationService.__get_geolocation_data (lines 60-120) applied
to one HTTP response: on 200, a present "error" key raises; then truthiness
of the required fields is checked and a non-empty missing list raises;
otherwise the provider fields are mapped onto the internal names and
returned.  On any other status the client raises an error carrying the
status.  The Optional result mirrors the Python signature: no branch ever
produces `ok none`, a NotFound classification. -/
def getGeolocationData (status : Nat) (d : ProviderResp) :
    Except LookupErr (Option MappedData) :=
  if status = 200 then
    if d.hasErrorKey then Except.error LookupErr.apiErr
    else
      let missing := missingFields d
      if missing = [] then
        Except.ok (some
          { ip := d.ip
            latitude := d.latitude
            longitude := d.longitude
            city := d.city
            region := d.region_name
            country := d.country_name
            continent := d.continent_name
            postal_code := d.zip })
      else Except.error (LookupErr.invalidResp missing)
  else Except.error (LookupErr.httpFail status)

end IpStackGeolocationService

/-
Domain canonicalization (geolocation_router.py, domain_validator,
lines 28-44).  The Python string primitives are embedded as structurally
recursive functions on character lists (split, prefix test, lowercase),
and tldextract is modelled by its public-suffix algorithm: the suffix is
the longest dotted tail of the host's labels that appears in the
public-suffix dataset, the registrable label is the label just before it
(empty when the whole host is a suffix), and when no suffix matches the
label is the last label and the suffix is empty.  The dataset is pinned
to the snapshot of suffixes the proofs need.
-/

/-- str.split(sep) on character lists (keeps empty pieces, as Python does). -/
def splitOnCharAux (sep : Char) : List Char → List Char → List (List Char)
  | [], acc => [acc.reverse]
  | c :: rest, acc =>
      if c = sep then acc.reverse :: splitOnCharAux sep rest []
      else splitOnCharAux sep rest (c :: acc)

/-- str.split(sep) for a one-character separator. -/
def splitOnChar (sep : Char) (cs : List Char) : List (List Char) :=
  splitOnCharAux sep cs []

/-- What follows the first occurrence of pat, when pat occurs. -/
def afterFirstSub (pat : List Char) : List Char → Option (List Char)
  | [] => none
  | c :: rest =>
      if pat.isPrefixOf (c :: rest) then some ((c :: rest).drop pat.length)
      else afterFirstSub pat rest

/-- ASCII lowercase of one character. -/
def lcChar (c : Char) : Char :=
  if 'A' ≤ c ∧ c ≤ 'Z' then Char.ofNat (c.toNat + 32) else c

/-- urlparse(value).hostname for a value carrying a scheme: the authority
runs from after "://" to the first "/", "?" or "#"; the host part follows
the last "@" (userinfo) and precedes the first ":" (port), lowercased. -/
def hostnameOf (value : List Char) : List Char :=
  let afterScheme := (afterFirstSub (("://").data) value).getD []
  let netloc := afterScheme.takeWhile (fun c => decide (c ≠ '/' ∧ c ≠ '?' ∧ c ≠ '#'))
  let hostport := (splitOnChar ('@') netloc).getLastD []
  let host := hostport.takeWhile (fun c => decide (c ≠ ':'))
  host.map lcChar

/-- The host domain_validator reduces the input to before extraction:
urlparse hostname when the value starts with an http(s) scheme, otherwise
everything before the first ":" (lines 31-36). -/
def hostOf (value : String) : List Char :=
  if (("http://").data.isPrefixOf value.data) || (("https://").data.isPrefixOf value.data) then
    hostnameOf value.data
  else
    (splitOnChar (':') value.data).headD []

/-- Pinned public-suffix dataset snapshot, as label lists joined with dots. -/
def psl : List (List Char) :=
  [("com").data, ("net").data, ("org").data, ("uk").data,
   ("co.uk").data, ("org.uk").data, ("google").data]

/-- Join labels with dots. -/
def joinLabels : List (List Char) → List Char
  | [] => []
  | [l] => l
  | l :: l2 :: rest => l ++ '.' :: joinLabels (l2 :: rest)

/-- Length (in labels) of the longest tail of `labels` whose dotted join is
in the dataset, trying tails of k labels from k = bound down to 1. -/
def longestSuffixLen (labels : List (List Char)) : Nat → Nat
  | 0 => 0
  | k + 1 =>
      if joinLabels (labels.drop (labels.length - (k + 1))) ∈ psl then k + 1
      else longestSuffixLen labels k

/-- The registrable-label/suffix pair tldextract.extract returns for a host. -/
structure TldParts where
  domain : String
  suffix : String
deriving DecidableEq, Repr

/-- tldextract.extract on a host. -/
def tldx (host : List Char) : TldParts :=
  let labels := splitOnChar ('.') host
  let sl := longestSuffixLen labels labels.length
  if sl = 0 then
    { domain := String.mk (labels.getLastD []), suffix := "" }
  else
    { domain := String.mk ((labels.take (labels.length - sl)).getLastD [])
      suffix := String.mk (joinLabels (labels.drop (labels.length - sl))) }

/-- domain_validator (lines 28-44): reduce to a host, fail on an empty host,
extract, fail when the registrable label or the suffix is empty, and return
label.suffix.  (The Python isinstance guard cannot fire here: the input is
already a string.) -/
def domain_validator (value : String) : Except String String :=
  let host := hostOf value
  if host = [] then Except.error ("Invalid domain: host is empty")
  else
    let ext := tldx host
    if ext.domain = "" || ext.suffix = "" then
      Except.error ("Invalid domain: not a valid registrable domain")
    else Except.ok (ext.domain ++ "." ++ ext.suffix)

/-
Specification predicates and concrete fixtures used by the theorems below.
-/

/-- model_fields_set of a fully-populated record (every column passed to the
constructor, as the repository integration fixtures do - timestamps aside,
which upsert strips from both the insert values and the set clause anyway). -/
def fullPayload : List GeoField :=
  [GeoField.ip, GeoField.url, GeoField.latitude, GeoField.longitude,
   GeoField.city, GeoField.region, GeoField.country, GeoField.continent,
   GeoField.postal_code]

/-- The row's mutable content coincides with the record's, field by field
(no field-level merge). -/
def mutableAgrees (r : Row) (g : Geolocation) : Prop :=
  r.url = g.data.url ∧ r.latitude = g.data.latitude ∧
  r.longitude = g.data.longitude ∧ r.city = g.data.city ∧
  r.region = g.data.region ∧ r.country = g.data.country ∧
  r.continent = g.data.continent ∧ r.postal_code = g.data.postal_code

/-- Behaviour of one repository upsert call: it succeeds, classifies CREATED
exactly when no row with the record's ip existed at the instant of the atomic
write (the xmax conflict signal, not a prior existence check), leaves exactly
one row for that ip, and that row overwrites exactly the payload's mutable
fields while keeping the stored created_at/updated_at on the conflict branch
and taking the write-time clock on the insert branch. -/
def UpsertSpec (db : DB) (g : Geolocation) (t : Nat) : Prop :=
  ∃ db' rec res,
    IpGeolocationRepositoryImpl.upsert none db g t = Except.ok (db', rec, res) ∧
    (res = UpsertResult.CREATED ↔ findRow db.rows g.data.ip = none) ∧
    countIp db'.rows g.data.ip = 1 ∧
    ∃ r, findRow db'.rows g.data.ip = some r ∧
      rec = IpGeolocationRepositoryImpl.modelValidate r ∧
      (findRow db.rows g.data.ip = none →
        r.ip = g.data.ip ∧ r.created_at = t ∧ r.updated_at = t ∧
        r.url = (if GeoField.url ∈ g.fieldsSet then g.data.url else none) ∧
        r.latitude = (if GeoField.latitude ∈ g.fieldsSet then g.data.latitude else none) ∧
        r.longitude = (if GeoField.longitude ∈ g.fieldsSet then g.data.longitude else none) ∧
        r.city = (if GeoField.city ∈ g.fieldsSet then g.data.city else none) ∧
        r.region = (if GeoField.region ∈ g.fieldsSet then g.data.region else none) ∧
        r.country = (if GeoField.country ∈ g.fieldsSet then g.data.country else none) ∧
        r.continent = (if GeoField.continent ∈ g.fieldsSet then g.data.continent else none) ∧
        r.postal_code =
          (if GeoField.postal_code ∈ g.fieldsSet then g.data.postal_code else none)) ∧
      (∀ old, findRow db.rows g.data.ip = some old →
        r.ip = old.ip ∧ r.created_at = old.created_at ∧ r.updated_at = old.updated_at ∧
        r.url = (if GeoField.url ∈ g.fieldsSet then g.data.url else old.url) ∧
        r.latitude = (if GeoField.latitude ∈ g.fieldsSet then g.data.latitude else old.latitude) ∧
        r.longitude =
          (if GeoField.longitude ∈ g.fieldsSet then g.data.longitude else old.longitude) ∧
        r.city = (if GeoField.city ∈ g.fieldsSet then g.data.city else old.city) ∧
        r.region = (if GeoField.region ∈ g.fieldsSet then g.data.region else old.region) ∧
        r.country = (if GeoField.country ∈ g.fieldsSet then g.data.country else old.country) ∧
        r.continent =
          (if GeoField.continent ∈ g.fieldsSet then g.data.continent else old.continent) ∧
        r.postal_code =
          (if GeoField.postal_code ∈ g.fieldsSet then g.data.postal_code else old.postal_code))

/-- Two concurrent upserts of fully-populated records for the same fresh ip:
both succeed, the outcomes are one CREATED and one UPDATED, exactly one row
remains, and its content equals one of the two inputs entirely. -/
def ConcurrentUpsertSpec (db : DB) (g1 : Geolocation) (t1 : Nat)
    (g2 : Geolocation) (t2 : Nat) (ip : String) (oneFirst : Bool) : Prop :=
  ∃ a b db',
    runUpsertPair db g1 t1 g2 t2 oneFirst = (Except.ok a, Except.ok b, db') ∧
    ((a.2 = UpsertResult.CREATED ∧ b.2 = UpsertResult.UPDATED) ∨
     (a.2 = UpsertResult.UPDATED ∧ b.2 = UpsertResult.CREATED)) ∧
    countIp db'.rows ip = 1 ∧
    ∃ r, findRow db'.rows ip = some r ∧ (mutableAgrees r g1 ∨ mutableAgrees r g2)

/-- An empty, reachable database. -/
def db0 : DB := { rows := [], avail := true }

/-- An unreachable database (every round trip raises a connection error). -/
def dbDown : DB := { rows := [], avail := false }

/-- Lookup result of the first concurrent caller. -/
def dOne : LookupData :=
  { ip := "3.3.3.3", latitude := some 1, longitude := some 2
    city := some "CityOne", region := some "R", country := some "C"
    continent := some "Co", postal_code := some "P" }

/-- Lookup result of the second concurrent caller (same ip, different city). -/
def dTwo : LookupData := { dOne with city := some "CityTwo" }

/-- Thread inputs of the two concurrent add_ip_data calls. -/
def inpOne : ThreadInput := { ext := ExtResult.found dOne, t := 1, ip := "3.3.3.3" }

/-- Thread input of the second concurrent add_ip_data call. -/
def inpTwo : ThreadInput := { ext := ExtResult.found dTwo, t := 2, ip := "3.3.3.3" }

/-- The racy schedule: both threads look up, both run their existence check
(both see the ip absent), then both take the add branch. -/
def racySched : List Bool := [true, false, true, false, true, false]

/-- A stored row bound to url old.com. -/
def rowOld : Row :=
  { ip := "1.1.1.1", url := some "old.com", latitude := some 10
    longitude := some 20, city := some "Oldtown", region := some "OldR"
    country := some "OldC", continent := some "OldCo", postal_code := some "11111"
    created_at := 3, updated_at := 3 }

/-- A database already holding rowOld. -/
def dbOld : DB := { rows := [rowOld], avail := true }

/-- A fresh lookup result for the same ip (a lookup-produced record never
has its url field set). -/
def dNew : LookupData :=
  { ip := "1.1.1.1", latitude := some 50, longitude := some 60
    city := some "Newcity", region := some "NewR", country := some "NewC"
    continent := some "NewCo", postal_code := some "22222" }

/-- The lookup-produced record upserted over rowOld, constructed at clock 9. -/
def gNew : Geolocation := mkLookupGeo 9 dNew

/-- The row the conflict branch actually produces for gNew over rowOld:
every payload field is overwritten, but url (unset on gNew) keeps old.com. -/
def rowAfterUpsert : Row :=
  { ip := "1.1.1.1", url := some "old.com", latitude := some 50
    longitude := some 60, city := some "Newcity", region := some "NewR"
    country := some "NewC", continent := some "NewCo", postal_code := some "22222"
    created_at := 3, updated_at := 3 }

/-- A stored row whose created_at is 10. -/
def rowT : Row :=
  { ip := "9.9.9.9", url := some "u.com", latitude := some 1
    longitude := some 1, city := some "A", region := some "R"
    country := some "C", continent := some "Co", postal_code := some "P"
    created_at := 10, updated_at := 10 }

/-- A database already holding rowT. -/
def dbT : DB := { rows := [rowT], avail := true }

/-- A fully-materialized record for the same ip carrying fresh timestamps,
as add_ip_data's update path feeds into the repository. -/
def gT : Geolocation :=
  { data :=
      { ip := "9.9.9.9", url := some "u2.com", latitude := some 7
        longitude := some 8, city := some "B", region := some "R2"
        country := some "C2", continent := some "Co2", postal_code := some "P2"
        created_at := 99, updated_at := 100 }
    fieldsSet := fullPayload }

/-- Lookup data for the idempotence scenario. -/
def dSeq : LookupData :=
  { ip := "5.5.5.5", latitude := some 4, longitude := some 5
    city := some "S", region := some "SR", country := some "SC"
    continent := some "SCo", postal_code := some "SP" }

/-- First sequential add_ip_data call, at clock 1. -/
def seqOut1 : SvcOut :=
  GeolocationApplicationService.add_ip_data (ExtResult.found dSeq) db0 1 ("5.5.5.5")

/-- Second sequential add_ip_data call, at clock 2, on the database the
first call left behind. -/
def seqOut2 : SvcOut :=
  GeolocationApplicationService.add_ip_data (ExtResult.found dSeq) seqOut1.db 2 ("5.5.5.5")

/-- A 200 provider body missing its ip field (latitude/longitude present). -/
def respNoIp : ProviderResp :=
  { hasErrorKey := false, ip := none, latitude := some (JVal.jnum 5)
    longitude := some (JVal.jnum 6), city := none, region_name := none
    country_name := none, continent_name := none, zip := none }

/-- A 200 provider body whose latitude is present but exactly 0 (a point on
the equator), with ip and longitude truthy. -/
def respZeroLat : ProviderResp :=
  { hasErrorKey := false, ip := some (JVal.jstr ("1.2.3.4"))
    latitude := some (JVal.jnum 0), longitude := some (JVal.jnum 6)
    city := some (JVal.jstr ("X")), region_name := none
    country_name := none, continent_name := none, zip := none }

/-- Fully-populated records for the concurrent-upsert witness. -/
def gW1 : Geolocation :=
  { data :=
      { ip := "4.4.4.4", url := some "w1.com", latitude := some 1
        longitude := some 2, city := some "W1", region := some "WR1"
        country := some "WC1", continent := some "WCo1", postal_code := some "WP1"
        created_at := 0, updated_at := 0 }
    fieldsSet := fullPayload }

/-- Second fully-populated record for the concurrent-upsert witness. -/
def gW2 : Geolocation :=
  { data :=
      { ip := "4.4.4.4", url := some "w2.com", latitude := some 3
        longitude := some 4, city := some "W2", region := some "WR2"
        country := some "WC2", continent := some "WCo2", postal_code := some "WP2"
        created_at := 0, updated_at := 0 }
    fieldsSet := fullPayload }

/-
Helper lemmas about the table model.
-/

theorem findRow_ip_of_eq_some {l : List Row} {ip : String} {r : Row}
    (h : findRow l ip = some r) : r.ip = ip := by
  induction l with
  | nil => simp [findRow] at h
  | cons x xs ih =>
      by_cases hc : x.ip = ip
      · simp only [findRow, if_pos hc] at h
        cases h
        exact hc
      · simp only [findRow, if_neg hc] at h
        exact ih h

theorem findRow_append_of_none {l1 l2 : List Row} {ip : String}
    (h : findRow l1 ip = none) : findRow (l1 ++ l2) ip = findRow l2 ip := by
  induction l1 with
  | nil => rfl
  | cons x xs ih =>
      by_cases hc : x.ip = ip
      · simp only [findRow, if_pos hc] at h
        exact Option.noConfusion h
      · simp only [List.cons_append, List.append_eq, findRow, if_neg hc] at h ⊢
        exact ih h

theorem findRow_singleton_of_ip {r : Row} {ip : String} (h : r.ip = ip) :
    findRow [r] ip = some r := by
  simp [findRow, h]

theorem countIp_append (l1 l2 : List Row) (ip : String) :
    countIp (l1 ++ l2) ip = countIp l1 ip + countIp l2 ip := by
  induction l1 with
  | nil => simp [countIp]
  | cons x xs ih =>
      simp only [List.cons_append, List.append_eq, countIp]
      rw [ih]
      omega

theorem countIp_eq_zero_of_none {l : List Row} {ip : String}
    (h : findRow l ip = none) : countIp l ip = 0 := by
  induction l with
  | nil => rfl
  | cons x xs ih =>
      by_cases hc : x.ip = ip
      · simp only [findRow, if_pos hc] at h
        exact Option.noConfusion h
      · simp only [findRow, if_neg hc] at h
        simp only [countIp, if_neg hc, ih h]

theorem countIp_pos_of_some {l : List Row} {ip : String} {r : Row}
    (h : findRow l ip = some r) : 1 ≤ countIp l ip := by
  induction l with
  | nil => simp [findRow] at h
  | cons x xs ih =>
      by_cases hc : x.ip = ip
      · simp only [countIp, if_pos hc]
        omega
      · simp only [findRow, if_neg hc] at h
        simp only [countIp, if_neg hc]
        have := ih h
        omega

theorem replaceRow_of_none {l : List Row} {ip : String} {r : Row}
    (h : findRow l ip = none) : replaceRow l ip r = l := by
  induction l with
  | nil => rfl
  | cons x xs ih =>
      by_cases hc : x.ip = ip
      · simp only [findRow, if_pos hc] at h
        exact Option.noConfusion h
      · simp only [findRow, if_neg hc] at h
        simp only [replaceRow, if_neg hc, ih h]

theorem replaceRow_append (l1 l2 : List Row) (ip : String) (r : Row) :
    replaceRow (l1 ++ l2) ip r = replaceRow l1 ip r ++ replaceRow l2 ip r := by
  induction l1 with
  | nil => rfl
  | cons x xs ih =>
      by_cases hc : x.ip = ip
      · simp only [List.cons_append, List.append_eq, replaceRow, if_pos hc]
        rw [ih]
      · simp only [List.cons_append, List.append_eq, replaceRow, if_neg hc]
        rw [ih]

theorem findRow_replaceRow {l : List Row} {ip : String} {r old : Row}
    (hr : r.ip = ip) (h : findRow l ip = some old) :
    findRow (replaceRow l ip r) ip = some r := by
  induction l with
  | nil => simp [findRow] at h
  | cons x xs ih =>
      by_cases hc : x.ip = ip
      · simp only [replaceRow, if_pos hc, findRow, if_pos hr]
      · simp only [findRow, if_neg hc] at h
        simp only [replaceRow, if_neg hc, findRow, if_neg hc]
        exact ih h

theorem countIp_replaceRow {l : List Row} {ip : String} {r : Row}
    (hr : r.ip = ip) : countIp (replaceRow l ip r) ip = countIp l ip := by
  induction l with
  | nil => rfl
  | cons x xs ih =>
      by_cases hc : x.ip = ip
      · simp only [replaceRow, if_pos hc, countIp, if_pos hr, if_pos hc, ih]
      · simp only [replaceRow, if_neg hc, countIp, if_neg hc, ih]

/-
Helper lemmas about the two branches of the upsert statement.
-/

theorem upsert_insert_branch (db : DB) (g : Geolocation) (t : Nat)
    (hav : db.avail = true) (hfresh : findRow db.rows g.data.ip = none) :
    IpGeolocationRepositoryImpl.upsert none db g t =
      Except.ok
        ({ db with
            rows := db.rows ++ [IpGeolocationRepositoryImpl.insertRowFromPayload g t] },
         IpGeolocationRepositoryImpl.modelValidate
           (IpGeolocationRepositoryImpl.insertRowFromPayload g t),
         UpsertResult.CREATED) := by
  simp [IpGeolocationRepositoryImpl.upsert, IpGeolocationRepositoryImpl.execUpsertStmt,
        hav, hfresh]

theorem upsert_conflict_branch (db : DB) (g : Geolocation) (t : Nat) (old : Row)
    (hav : db.avail = true) (hfound : findRow db.rows g.data.ip = some old) :
    IpGeolocationRepositoryImpl.upsert none db g t =
      Except.ok
        ({ db with
            rows := replaceRow db.rows g.data.ip
              (IpGeolocationRepositoryImpl.applySetClause old g) },
         IpGeolocationRepositoryImpl.modelValidate
           (IpGeolocationRepositoryImpl.applySetClause old g),
         UpsertResult.UPDATED) := by
  simp [IpGeolocationRepositoryImpl.upsert, IpGeolocationRepositoryImpl.execUpsertStmt,
        hav, hfound]

theorem mem_setClauseKeys_iff (g : Geolocation) (f : GeoField)
    (h0 : f ≠ GeoField.ip) (h1 : f ≠ GeoField.created_at)
    (h2 : f ≠ GeoField.updated_at) :
    f ∈ IpGeolocationRepositoryImpl.setClauseKeys g ↔ f ∈ g.fieldsSet := by
  simp [IpGeolocationRepositoryImpl.setClauseKeys,
        IpGeolocationRepositoryImpl.payloadKeys, List.mem_filter, h0, h1, h2]

theorem mem_valuesForInsertKeys_iff (g : Geolocation) (f : GeoField)
    (h1 : f ≠ GeoField.created_at) (h2 : f ≠ GeoField.updated_at) :
    f ∈ IpGeolocationRepositoryImpl.valuesForInsertKeys g ↔ f ∈ g.fieldsSet := by
  simp [IpGeolocationRepositoryImpl.valuesForInsertKeys,
        IpGeolocationRepositoryImpl.payloadKeys, List.mem_filter, h1, h2]

theorem not_mem_fieldsSet_of_setClause_empty (g : Geolocation) (f : GeoField)
    (h0 : f ≠ GeoField.ip) (h1 : f ≠ GeoField.created_at)
    (h2 : f ≠ GeoField.updated_at)
    (hempty : IpGeolocationRepositoryImpl.setClauseKeys g = []) :
    f ∉ g.fieldsSet := by
  intro hm
  have hsc := (mem_setClauseKeys_iff g f h0 h1 h2).mpr hm
  rw [hempty] at hsc
  exact (List.not_mem_nil f) hsc

theorem applySetClause_fields (old : Row) (g : Geolocation) :
    (IpGeolocationRepositoryImpl.applySetClause old g).ip = old.ip ∧
    (IpGeolocationRepositoryImpl.applySetClause old g).created_at = old.created_at ∧
    (IpGeolocationRepositoryImpl.applySetClause old g).updated_at = old.updated_at ∧
    (IpGeolocationRepositoryImpl.applySetClause old g).url =
      (if GeoField.url ∈ g.fieldsSet then g.data.url else old.url) ∧
    (IpGeolocationRepositoryImpl.applySetClause old g).latitude =
      (if GeoField.latitude ∈ g.fieldsSet then g.data.latitude else old.latitude) ∧
    (IpGeolocationRepositoryImpl.applySetClause old g).longitude =
      (if GeoField.longitude ∈ g.fieldsSet then g.data.longitude else old.longitude) ∧
    (IpGeolocationRepositoryImpl.applySetClause old g).city =
      (if GeoField.city ∈ g.fieldsSet then g.data.city else old.city) ∧
    (IpGeolocationRepositoryImpl.applySetClause old g).region =
      (if GeoField.region ∈ g.fieldsSet then g.data.region else old.region) ∧
    (IpGeolocationRepositoryImpl.applySetClause old g).country =
      (if GeoField.country ∈ g.fieldsSet then g.data.country else old.country) ∧
    (IpGeolocationRepositoryImpl.applySetClause old g).continent =
      (if GeoField.continent ∈ g.fieldsSet then g.data.continent else old.continent) ∧
    (IpGeolocationRepositoryImpl.applySetClause old g).postal_code =
      (if GeoField.postal_code ∈ g.fieldsSet then g.data.postal_code else old.postal_code) := by
  unfold IpGeolocationRepositoryImpl.applySetClause
  by_cases hempty : IpGeolocationRepositoryImpl.setClauseKeys g = []
  · rw [if_pos hempty]
    refine ⟨rfl, rfl, rfl, ?_, ?_, ?_, ?_, ?_, ?_, ?_, ?_⟩
    · exact (if_neg (not_mem_fieldsSet_of_setClause_empty g GeoField.url
        (by decide) (by decide) (by decide) hempty)).symm
    · exact (if_neg (not_mem_fieldsSet_of_setClause_empty g GeoField.latitude
        (by decide) (by decide) (by decide) hempty)).symm
    · exact (if_neg (not_mem_fieldsSet_of_setClause_empty g GeoField.longitude
        (by decide) (by decide) (by decide) hempty)).symm
    · exact (if_neg (not_mem_fieldsSet_of_setClause_empty g GeoField.city
        (by decide) (by decide) (by decide) hempty)).symm
    · exact (if_neg (not_mem_fieldsSet_of_setClause_empty g GeoField.region
        (by decide) (by decide) (by decide) hempty)).symm
    · exact (if_neg (not_mem_fieldsSet_of_setClause_empty g GeoField.country
        (by decide) (by decide) (by decide) hempty)).symm
    · exact (if_neg (not_mem_fieldsSet_of_setClause_empty g GeoField.continent
        (by decide) (by decide) (by decide) hempty)).symm
    · exact (if_neg (not_mem_fieldsSet_of_setClause_empty g GeoField.postal_code
        (by decide) (by decide) (by decide) hempty)).symm
  · rw [if_neg hempty]
    refine ⟨rfl, rfl, rfl, ?_, ?_, ?_, ?_, ?_, ?_, ?_, ?_⟩
    · exact if_congr (mem_setClauseKeys_iff g GeoField.url
        (by decide) (by decide) (by decide)) rfl rfl
    · exact if_congr (mem_setClauseKeys_iff g GeoField.latitude
        (by decide) (by decide) (by decide)) rfl rfl
    · exact if_congr (mem_setClauseKeys_iff g GeoField.longitude
        (by decide) (by decide) (by decide)) rfl rfl
    · exact if_congr (mem_setClauseKeys_iff g GeoField.city
        (by decide) (by decide) (by decide)) rfl rfl
    · exact if_congr (mem_setClauseKeys_iff g GeoField.region
        (by decide) (by decide) (by decide)) rfl rfl
    · exact if_congr (mem_setClauseKeys_iff g GeoField.country
        (by decide) (by decide) (by decide)) rfl rfl
    · exact if_congr (mem_setClauseKeys_iff g GeoField.continent
        (by decide) (by decide) (by decide)) rfl rfl
    · exact if_congr (mem_setClauseKeys_iff g GeoField.postal_code
        (by decide) (by decide) (by decide)) rfl rfl

theorem insertRowFromPayload_fields (g : Geolocation) (t : Nat) :
    (IpGeolocationRepositoryImpl.insertRowFromPayload g t).ip = g.data.ip ∧
    (IpGeolocationRepositoryImpl.insertRowFromPayload g t).created_at = t ∧
    (IpGeolocationRepositoryImpl.insertRowFromPayload g t).updated_at = t ∧
    (IpGeolocationRepositoryImpl.insertRowFromPayload g t).url =
      (if GeoField.url ∈ g.fieldsSet then g.data.url else none) ∧
    (IpGeolocationRepositoryImpl.insertRowFromPayload g t).latitude =
      (if GeoField.latitude ∈ g.fieldsSet then g.data.latitude else none) ∧
    (IpGeolocationRepositoryImpl.insertRowFromPayload g t).longitude =
      (if GeoField.longitude ∈ g.fieldsSet then g.data.longitude else none) ∧
    (IpGeolocationRepositoryImpl.insertRowFromPayload g t).city =
      (if GeoField.city ∈ g.fieldsSet then g.data.city else none) ∧
    (IpGeolocationRepositoryImpl.insertRowFromPayload g t).region =
      (if GeoField.region ∈ g.fieldsSet then g.data.region else none) ∧
    (IpGeolocationRepositoryImpl.insertRowFromPayload g t).country =
      (if GeoField.country ∈ g.fieldsSet then g.data.country else none) ∧
    (IpGeolocationRepositoryImpl.insertRowFromPayload g t).continent =
      (if GeoField.continent ∈ g.fieldsSet then g.data.continent else none) ∧
    (IpGeolocationRepositoryImpl.insertRowFromPayload g t).postal_code =
      (if GeoField.postal_code ∈ g.fieldsSet then g.data.postal_code else none) := by
  unfold IpGeolocationRepositoryImpl.insertRowFromPayload
  refine ⟨rfl, rfl, rfl, ?_, ?_, ?_, ?_, ?_, ?_, ?_, ?_⟩
  · exact if_congr (mem_valuesForInsertKeys_iff g GeoField.url
      (by decide) (by decide)) rfl rfl
  · exact if_congr (mem_valuesForInsertKeys_iff g GeoField.latitude
      (by decide) (by decide)) rfl rfl
  · exact if_congr (mem_valuesForInsertKeys_iff g GeoField.longitude
      (by decide) (by decide)) rfl rfl
  · exact if_congr (mem_valuesForInsertKeys_iff g GeoField.city
      (by decide) (by decide)) rfl rfl
  · exact if_congr (mem_valuesForInsertKeys_iff g GeoField.region
      (by decide) (by decide)) rfl rfl
  · exact if_congr (mem_valuesForInsertKeys_iff g GeoField.country
      (by decide) (by decide)) rfl rfl
  · exact if_congr (mem_valuesForInsertKeys_iff g GeoField.continent
      (by decide) (by decide)) rfl rfl
  · exact if_congr (mem_valuesForInsertKeys_iff g GeoField.postal_code
      (by decide) (by decide)) rfl rfl

/-- C2: Store.upsert inserts a new row when no row with the record's ip
exists and otherwise overwrites the mutable fields of the existing row that
are present in the record's exclude_unset payload (leaving the others, and
created_at, untouched), and the returned outcome is derived from the
database's own conflict signal at the instant of the single atomic write
(xmax = 0 exactly when the write inserted), not from a prior existence
check: CREATED is returned iff no row with that ip existed at write time. -/
theorem C2_upsert_conflict_signal (db : DB) (g : Geolocation) (t : Nat)
    (hav : db.avail = true) (huniq : countIp db.rows g.data.ip ≤ 1) :
    UpsertSpec db g t := by
  cases hfr : findRow db.rows g.data.ip with
  | none =>
      refine ⟨_, _, _, upsert_insert_branch db g t hav hfr, ?_, ?_, ?_⟩
      · exact iff_of_true rfl hfr
      · show countIp (db.rows ++ [IpGeolocationRepositoryImpl.insertRowFromPayload g t])
          g.data.ip = 1
        rw [countIp_append, countIp_eq_zero_of_none hfr]
        simp [countIp, (insertRowFromPayload_fields g t).1]
      · refine ⟨IpGeolocationRepositoryImpl.insertRowFromPayload g t, ?_, rfl, ?_, ?_⟩
        · show findRow (db.rows ++ [IpGeolocationRepositoryImpl.insertRowFromPayload g t])
            g.data.ip = some (IpGeolocationRepositoryImpl.insertRowFromPayload g t)
          rw [findRow_append_of_none hfr]
          exact findRow_singleton_of_ip (insertRowFromPayload_fields g t).1
        · intro _
          exact insertRowFromPayload_fields g t
        · intro old hold
          rw [hfr] at hold
          exact Option.noConfusion hold
  | some old =>
      have hip : (IpGeolocationRepositoryImpl.applySetClause old g).ip = g.data.ip := by
        rw [(applySetClause_fields old g).1, findRow_ip_of_eq_some hfr]
      refine ⟨_, _, _, upsert_conflict_branch db g t old hav hfr, ?_, ?_, ?_⟩
      · refine iff_of_false (by simp) (by simp [hfr])
      · show countIp
          (replaceRow db.rows g.data.ip (IpGeolocationRepositoryImpl.applySetClause old g))
          g.data.ip = 1
        rw [countIp_replaceRow hip]
        have h1 := countIp_pos_of_some hfr
        omega
      · refine ⟨IpGeolocationRepositoryImpl.applySetClause old g, ?_, rfl, ?_, ?_⟩
        · exact findRow_replaceRow hip hfr
        · intro hnone
          rw [hfr] at hnone
          exact Option.noConfusion hnone
        · intro old2 hold2
          rw [hfr] at hold2
          cases hold2
          have hfields := applySetClause_fields old g
          refine ⟨?_, hfields.2.1, hfields.2.2.1, hfields.2.2.2⟩
          rw [hfields.1]

/-- C2 witness: the specification holds at a concrete fully-populated record
over the empty reachable database. -/
theorem C2_upsert_conflict_signal_witness :
    db0.avail = true ∧ countIp db0.rows gW1.data.ip ≤ 1 ∧ UpsertSpec db0 gW1 7 :=
  ⟨rfl, by decide, C2_upsert_conflict_signal db0 gW1 7 rfl (by decide)⟩

/-- C2 counterexample: for a lookup-produced record (whose url field is not
in the exclude_unset payload), upsert over an existing row does NOT overwrite
the url column: the stored url stays old.com although the record's url is
None, refuting "overwrites all mutable fields (url, ...) of the existing
row" for every record. -/
theorem C2_counterexample :
    IpGeolocationRepositoryImpl.upsert none dbOld gNew 9 =
      Except.ok
        ({ dbOld with rows := [rowAfterUpsert] },
         IpGeolocationRepositoryImpl.modelValidate rowAfterUpsert,
         UpsertResult.UPDATED) ∧
    rowAfterUpsert.url = some ("old.com") ∧
    gNew.data.url = none ∧
    rowAfterUpsert.url ≠ gNew.data.url := by
  refine ⟨by decide, rfl, rfl, by decide⟩

theorem insertRow_full (g : Geolocation) (t : Nat)
    (hf : g.fieldsSet = fullPayload) :
    IpGeolocationRepositoryImpl.insertRowFromPayload g t =
      { g.data with created_at := t, updated_at := t } := by
  unfold IpGeolocationRepositoryImpl.insertRowFromPayload
    IpGeolocationRepositoryImpl.valuesForInsertKeys
    IpGeolocationRepositoryImpl.payloadKeys
  rw [hf]
  rfl

theorem applySetClause_full (old : Row) (g : Geolocation)
    (hf : g.fieldsSet = fullPayload) :
    IpGeolocationRepositoryImpl.applySetClause old g =
      { g.data with
          ip := old.ip, created_at := old.created_at, updated_at := old.updated_at } := by
  unfold IpGeolocationRepositoryImpl.applySetClause
    IpGeolocationRepositoryImpl.setClauseKeys
    IpGeolocationRepositoryImpl.payloadKeys
  rw [hf]
  rfl

theorem two_sequential_upserts (db : DB) (ga gb : Geolocation) (ta tb : Nat)
    (ip : String)
    (hav : db.avail = true) (hfresh : findRow db.rows ip = none)
    (ha : ga.data.ip = ip) (hb : gb.data.ip = ip)
    (hfa : ga.fieldsSet = fullPayload) (hfb : gb.fieldsSet = fullPayload) :
    seqUpsert db ga ta =
      (Except.ok
        (IpGeolocationRepositoryImpl.modelValidate
          { ga.data with created_at := ta, updated_at := ta },
         UpsertResult.CREATED),
       { db with rows := db.rows ++ [{ ga.data with created_at := ta, updated_at := ta }] }) ∧
    seqUpsert
        { db with rows := db.rows ++ [{ ga.data with created_at := ta, updated_at := ta }] }
        gb tb =
      (Except.ok
        (IpGeolocationRepositoryImpl.modelValidate
          { gb.data with ip := ga.data.ip, created_at := ta, updated_at := ta },
         UpsertResult.UPDATED),
       { db with
          rows := db.rows ++
            [{ gb.data with ip := ga.data.ip, created_at := ta, updated_at := ta }] }) := by
  have e1 := upsert_insert_branch db ga ta hav (by rw [ha]; exact hfresh)
  have hrowA : IpGeolocationRepositoryImpl.insertRowFromPayload ga ta =
      { ga.data with created_at := ta, updated_at := ta } := insertRow_full ga ta hfa
  constructor
  · simp only [seqUpsert, e1, hrowA]
  · have hfound :
        findRow (db.rows ++ [{ ga.data with created_at := ta, updated_at := ta }])
          gb.data.ip =
        some { ga.data with created_at := ta, updated_at := ta } := by
      rw [hb, findRow_append_of_none hfresh]
      exact findRow_singleton_of_ip ha
    have e2 := upsert_conflict_branch
      { db with rows := db.rows ++ [{ ga.data with created_at := ta, updated_at := ta }] }
      gb tb { ga.data with created_at := ta, updated_at := ta } hav hfound
    have happ : IpGeolocationRepositoryImpl.applySetClause
        { ga.data with created_at := ta, updated_at := ta } gb =
        { gb.data with ip := ga.data.ip, created_at := ta, updated_at := ta } :=
      applySetClause_full { ga.data with created_at := ta, updated_at := ta } gb hfb
    have hrepl :
        replaceRow (db.rows ++ [{ ga.data with created_at := ta, updated_at := ta }])
          gb.data.ip
          { gb.data with ip := ga.data.ip, created_at := ta, updated_at := ta } =
        db.rows ++
          [{ gb.data with ip := ga.data.ip, created_at := ta, updated_at := ta }] := by
      rw [hb, replaceRow_append, replaceRow_of_none hfresh]
      simp [replaceRow, ha]
    rw [happ] at e2
    rw [hrepl] at e2
    simp only [seqUpsert, e2]

/-- C1 (amended): two concurrent Store.upsert calls with fully-populated
records for the same previously-unseen ip are two atomic conflict-resolving
statements, so they execute in one of the two orders, and in either order
they resolve to exactly one CREATED and one UPDATED outcome, leave exactly
one row for that ip, and that row's content equals one of the two inputs
entirely (the later writer's - no field-level merge).  The add_ip_data
entry point does NOT have this property (see the counterexample). -/
theorem C1_concurrent_upserts (db : DB) (g1 g2 : Geolocation) (t1 t2 : Nat)
    (ip : String) (oneFirst : Bool)
    (hav : db.avail = true) (hfresh : findRow db.rows ip = none)
    (h1 : g1.data.ip = ip) (h2 : g2.data.ip = ip)
    (hf1 : g1.fieldsSet = fullPayload) (hf2 : g2.fieldsSet = fullPayload) :
    ConcurrentUpsertSpec db g1 t1 g2 t2 ip oneFirst := by
  cases oneFirst with
  | true =>
      obtain ⟨eA, eB⟩ := two_sequential_upserts db g1 g2 t1 t2 ip hav hfresh h1 h2 hf1 hf2
      refine ⟨(IpGeolocationRepositoryImpl.modelValidate
            { g1.data with created_at := t1, updated_at := t1 },
          UpsertResult.CREATED),
        (IpGeolocationRepositoryImpl.modelValidate
            { g2.data with ip := g1.data.ip, created_at := t1, updated_at := t1 },
          UpsertResult.UPDATED),
        { db with
            rows := db.rows ++
              [{ g2.data with ip := g1.data.ip, created_at := t1, updated_at := t1 }] },
        ?_, Or.inl ⟨rfl, rfl⟩, ?_, ?_⟩
      · simp [runUpsertPair, eA, eB]
      · show countIp (db.rows ++
            [{ g2.data with ip := g1.data.ip, created_at := t1, updated_at := t1 }]) ip = 1
        rw [countIp_append, countIp_eq_zero_of_none hfresh]
        simp [countIp, h1]
      · refine ⟨{ g2.data with ip := g1.data.ip, created_at := t1, updated_at := t1 },
          ?_, Or.inr ⟨rfl, rfl, rfl, rfl, rfl, rfl, rfl, rfl⟩⟩
        show findRow (db.rows ++
            [{ g2.data with ip := g1.data.ip, created_at := t1, updated_at := t1 }]) ip =
          some { g2.data with ip := g1.data.ip, created_at := t1, updated_at := t1 }
        rw [findRow_append_of_none hfresh]
        exact findRow_singleton_of_ip h1
  | false =>
      obtain ⟨eA, eB⟩ := two_sequential_upserts db g2 g1 t2 t1 ip hav hfresh h2 h1 hf2 hf1
      refine ⟨(IpGeolocationRepositoryImpl.modelValidate
            { g1.data with ip := g2.data.ip, created_at := t2, updated_at := t2 },
          UpsertResult.UPDATED),
        (IpGeolocationRepositoryImpl.modelValidate
            { g2.data with created_at := t2, updated_at := t2 },
          UpsertResult.CREATED),
        { db with
            rows := db.rows ++
              [{ g1.data with ip := g2.data.ip, created_at := t2, updated_at := t2 }] },
        ?_, Or.inr ⟨rfl, rfl⟩, ?_, ?_⟩
      · simp [runUpsertPair, eA, eB]
      · show countIp (db.rows ++
            [{ g1.data with ip := g2.data.ip, created_at := t2, updated_at := t2 }]) ip = 1
        rw [countIp_append, countIp_eq_zero_of_none hfresh]
        simp [countIp, h2]
      · refine ⟨{ g1.data with ip := g2.data.ip, created_at := t2, updated_at := t2 },
          ?_, Or.inl ⟨rfl, rfl, rfl, rfl, rfl, rfl, rfl, rfl⟩⟩
        show findRow (db.rows ++
            [{ g1.data with ip := g2.data.ip, created_at := t2, updated_at := t2 }]) ip =
          some { g1.data with ip := g2.data.ip, created_at := t2, updated_at := t2 }
        rw [findRow_append_of_none hfresh]
        exact findRow_singleton_of_ip h2

/-- C1 witness: the concurrent-upsert property at two concrete
fully-populated records over the empty database. -/
theorem C1_concurrent_upserts_witness :
    db0.avail = true ∧ findRow db0.rows ("4.4.4.4") = none ∧
    gW1.data.ip = "4.4.4.4" ∧ gW2.data.ip = "4.4.4.4" ∧
    gW1.fieldsSet = fullPayload ∧ gW2.fieldsSet = fullPayload ∧
    ConcurrentUpsertSpec db0 gW1 5 gW2 6 ("4.4.4.4") true :=
  ⟨rfl, rfl, rfl, rfl, rfl, rfl,
   C1_concurrent_upserts db0 gW1 gW2 5 6 ("4.4.4.4") true rfl rfl rfl rfl rfl rfl⟩

/-- C1 counterexample: two concurrent add_ip_data calls for the same fresh
ip, under the legal interleaving in which both existence checks run before
either write, do NOT resolve to one CREATED and one UPDATED: the thread
whose strict INSERT runs second hits the unique-ip violation and raises
DatabaseUnavailableError, while the claim requires both calls to succeed
with complementary outcome tags (add_ip_data carries no outcome tag at all). -/
theorem C1_counterexample :
    (runSched inpOne inpTwo racySched (Phase.start, Phase.start, db0)).2.1 =
      Phase.finished (Except.error Err.dbUnavailable) ∧
    (runSched inpOne inpTwo racySched (Phase.start, Phase.start, db0)).1 =
      Phase.finished (Except.ok
        (IpGeolocationRepositoryImpl.modelValidate (mkLookupGeo 1 dOne).data)) ∧
    countIp (runSched inpOne inpTwo racySched (Phase.start, Phase.start, db0)).2.2.rows
      ("3.3.3.3") = 1 :=
  ⟨by decide, by decide, by decide⟩

/-- C3 (amended): for a successful lookup, add_ip_data performs a separate
existence check and then either Store.update (row present) or the strict
Store.add (row absent), returning only the stored record - it never invokes
Store.upsert and carries no UpsertOutcome tag, so create-vs-update cannot be
reported without the separate existence check. -/
theorem C3_add_ip_data_check_then_write (d : LookupData) (db : DB) (t : Nat)
    (ip : String) (hav : db.avail = true) (hecho : d.ip = ip) :
    (GeolocationApplicationService.add_ip_data (ExtResult.found d) db t ip).result =
      Except.ok (IpGeolocationRepositoryImpl.modelValidate (mkLookupGeo t d).data) ∧
    ((GeolocationApplicationService.add_ip_data (ExtResult.found d) db t ip).trace =
        [Event.evLookup ip, Event.evExistsIp ip, Event.evUpdate ip] ∨
     (GeolocationApplicationService.add_ip_data (ExtResult.found d) db t ip).trace =
        [Event.evLookup ip, Event.evExistsIp ip, Event.evAdd ip]) := by
  have hg : (mkLookupGeo t d).data.ip = ip := hecho
  cases hfr : findRow db.rows ip with
  | none =>
      have e : GeolocationApplicationService.add_ip_data (ExtResult.found d) db t ip =
          { result :=
              Except.ok (IpGeolocationRepositoryImpl.modelValidate (mkLookupGeo t d).data)
            db := { db with rows := db.rows ++ [(mkLookupGeo t d).data] }
            trace := [Event.evLookup ip, Event.evExistsIp ip, Event.evAdd ip] } := by
        simp [GeolocationApplicationService.add_ip_data,
              IpGeolocationRepositoryImpl.exists_by_ip,
              IpGeolocationRepositoryImpl.add, hav, hg, hfr]
      rw [e]
      exact ⟨rfl, Or.inr rfl⟩
  | some old =>
      have e : GeolocationApplicationService.add_ip_data (ExtResult.found d) db t ip =
          { result :=
              Except.ok (IpGeolocationRepositoryImpl.modelValidate (mkLookupGeo t d).data)
            db := { db with rows := replaceRow db.rows ip (mkLookupGeo t d).data }
            trace := [Event.evLookup ip, Event.evExistsIp ip, Event.evUpdate ip] } := by
        simp [GeolocationApplicationService.add_ip_data,
              IpGeolocationRepositoryImpl.exists_by_ip,
              IpGeolocationRepositoryImpl.update, hav, hg, hfr]
      rw [e]
      exact ⟨rfl, Or.inl rfl⟩

/-- C3 witness: the check-then-write behaviour at a concrete lookup over the
empty reachable database. -/
theorem C3_add_ip_data_check_then_write_witness :
    db0.avail = true ∧ dOne.ip = "3.3.3.3" ∧
    ((GeolocationApplicationService.add_ip_data (ExtResult.found dOne) db0 1
        ("3.3.3.3")).result =
      Except.ok (IpGeolocationRepositoryImpl.modelValidate (mkLookupGeo 1 dOne).data) ∧
    ((GeolocationApplicationService.add_ip_data (ExtResult.found dOne) db0 1
        ("3.3.3.3")).trace =
        [Event.evLookup ("3.3.3.3"), Event.evExistsIp ("3.3.3.3"),
         Event.evUpdate ("3.3.3.3")] ∨
     (GeolocationApplicationService.add_ip_data (ExtResult.found dOne) db0 1
        ("3.3.3.3")).trace =
        [Event.evLookup ("3.3.3.3"), Event.evExistsIp ("3.3.3.3"),
         Event.evAdd ("3.3.3.3")])) :=
  ⟨rfl, rfl, C3_add_ip_data_check_then_write dOne db0 1 ("3.3.3.3") rfl rfl⟩

/-- C3 counterexample: at a concrete input the call trace of add_ip_data is
lookup, existence check, strict add - Store.upsert is never called and the
claimed (record, UpsertOutcome) pair is never produced. -/
theorem C3_counterexample :
    (GeolocationApplicationService.add_ip_data (ExtResult.found dTwo) db0 2
        ("3.3.3.3")).trace =
      [Event.evLookup ("3.3.3.3"), Event.evExistsIp ("3.3.3.3"),
       Event.evAdd ("3.3.3.3")] ∧
    Event.evUpsert ("3.3.3.3") ∉
      (GeolocationApplicationService.add_ip_data (ExtResult.found dTwo) db0 2
        ("3.3.3.3")).trace :=
  ⟨by decide, by decide⟩

/-- C4 (amended): add_ip_data performs no store-availability pre-check: for
every input its very first collaborator call is the external lookup, and no
availability probe appears in its trace; store unavailability surfaces only
later, from the store operations themselves. -/
theorem C4_lookup_first_no_probe (ext : ExtResult) (db : DB) (t : Nat) (ip : String) :
    (GeolocationApplicationService.add_ip_data ext db t ip).trace.head? =
      some (Event.evLookup ip) ∧
    Event.evIsAvail ∉ (GeolocationApplicationService.add_ip_data ext db t ip).trace := by
  cases ext with
  | svcFail => exact ⟨rfl, by simp [GeolocationApplicationService.add_ip_data]⟩
  | notFound => exact ⟨rfl, by simp [GeolocationApplicationService.add_ip_data]⟩
  | found d =>
      cases he : IpGeolocationRepositoryImpl.exists_by_ip db ip with
      | error e =>
          constructor <;> simp [GeolocationApplicationService.add_ip_data, he]
      | ok b =>
          cases b with
          | true =>
              cases hu : IpGeolocationRepositoryImpl.update none db (mkLookupGeo t d) with
              | error e2 =>
                  constructor <;> simp [GeolocationApplicationService.add_ip_data, he, hu]
              | ok p =>
                  obtain ⟨db', rec⟩ := p
                  constructor <;> simp [GeolocationApplicationService.add_ip_data, he, hu]
          | false =>
              cases ha : IpGeolocationRepositoryImpl.add db (mkLookupGeo t d) with
              | error e2 =>
                  constructor <;> simp [GeolocationApplicationService.add_ip_data, he, ha]
              | ok p =>
                  obtain ⟨db', rec⟩ := p
                  constructor <;> simp [GeolocationApplicationService.add_ip_data, he, ha]

/-- C4 counterexample: with the store down (the availability probe would
report false), add_ip_data still calls the external lookup - the lookup
event is in the trace - and only afterwards fails with the store error, so
the claimed fail-fast-before-lookup behaviour does not hold. -/
theorem C4_counterexample :
    IpGeolocationRepositoryImpl.is_available dbDown = false ∧
    (GeolocationApplicationService.add_ip_data (ExtResult.found dOne) dbDown 1
        ("3.3.3.3")).result = Except.error Err.dbUnavailable ∧
    Event.evLookup ("3.3.3.3") ∈
      (GeolocationApplicationService.add_ip_data (ExtResult.found dOne) dbDown 1
        ("3.3.3.3")).trace :=
  ⟨rfl, by decide, by decide⟩

/-- C5 evaluation at the failing inputs: the update entry point setattr's
every dumped field onto the loaded row, so a stored created_at of 10 becomes
the incoming record's 99; likewise two sequential add_ip_data calls for the
same ip leave the final row's created_at at the second call's clock (2), not
the first call's (1), because the second call goes through update with a
freshly-constructed record. -/
theorem C5_created_at_rewritten_eval :
    IpGeolocationRepositoryImpl.update none dbT gT =
      Except.ok ({ dbT with rows := [gT.data] },
                 IpGeolocationRepositoryImpl.modelValidate gT.data) ∧
    rowT.created_at = 10 ∧ gT.data.created_at = 99 ∧
    findRow seqOut1.db.rows ("5.5.5.5") = some (mkLookupGeo 1 dSeq).data ∧
    findRow seqOut2.db.rows ("5.5.5.5") = some (mkLookupGeo 2 dSeq).data ∧
    (mkLookupGeo 1 dSeq).data.created_at = 1 ∧
    (mkLookupGeo 2 dSeq).data.created_at = 2 ∧
    (mkLookupGeo 2 dSeq).data.updated_at = 2 :=
  ⟨by decide, rfl, rfl, by decide, by decide, rfl, rfl, rfl⟩

/-- C7: when the lookup client reports NotFound, add_ip_data raises
NotFoundGeolocationData, leaves the database exactly as it was, and its
trace holds only the lookup call - no add, update or upsert is ever issued. -/
theorem C7_notfound_leaves_store_untouched (db : DB) (t : Nat) (ip : String) :
    GeolocationApplicationService.add_ip_data ExtResult.notFound db t ip =
      { result := Except.error Err.notFoundGeo, db := db,
        trace := [Event.evLookup ip] } ∧
    Event.evAdd ip ∉
      (GeolocationApplicationService.add_ip_data ExtResult.notFound db t ip).trace ∧
    Event.evUpdate ip ∉
      (GeolocationApplicationService.add_ip_data ExtResult.notFound db t ip).trace ∧
    Event.evUpsert ip ∉
      (GeolocationApplicationService.add_ip_data ExtResult.notFound db t ip).trace := by
  refine ⟨rfl, ?_, ?_, ?_⟩ <;> simp [GeolocationApplicationService.add_ip_data]

/-- C6: domain_validator reduces the input to a host (urlparse hostname for
scheme-carrying values, everything before the first colon otherwise), fails
on an empty host, splits the host with the public-suffix algorithm, fails
when the registrable label or the suffix is empty, and returns label.suffix;
in particular the four round-trip examples hold. -/
theorem C6_domain_validator_spec :
    domain_validator ("https://www.example.com:8080/path") = Except.ok ("example.com") ∧
    domain_validator ("sub.domain.co.uk") = Except.ok ("domain.co.uk") ∧
    (domain_validator ("google")).isOk = false ∧
    (domain_validator ("")).isOk = false ∧
    (∀ v, hostOf v = [] → (domain_validator v).isOk = false) ∧
    (∀ v, hostOf v ≠ [] →
      ((tldx (hostOf v)).domain = "" ∨ (tldx (hostOf v)).suffix = "") →
      (domain_validator v).isOk = false) ∧
    (∀ v, hostOf v ≠ [] → (tldx (hostOf v)).domain ≠ "" →
      (tldx (hostOf v)).suffix ≠ "" →
      domain_validator v =
        Except.ok ((tldx (hostOf v)).domain ++ "." ++ (tldx (hostOf v)).suffix)) := by
  refine ⟨by rfl, by rfl, by rfl, by rfl, ?_, ?_, ?_⟩
  · intro v h
    simp [domain_validator, h, Except.isOk, Except.toBool]
  · intro v h hdisj
    rcases hdisj with h1 | h1 <;>
      simp [domain_validator, h, h1, Except.isOk, Except.toBool]
  · intro v h h1 h2
    simp [domain_validator, h, h1, h2]

/-- C6 witness: the general failure and success clauses at concrete inputs
(empty input, a suffix-less single label, and a multi-part public suffix). -/
theorem C6_domain_validator_spec_witness :
    (domain_validator ("")).isOk = false ∧
    (domain_validator ("localhost")).isOk = false ∧
    domain_validator ("sub.domain.co.uk") =
      Except.ok ((tldx (hostOf ("sub.domain.co.uk"))).domain ++ "." ++
        (tldx (hostOf ("sub.domain.co.uk"))).suffix) :=
  ⟨C6_domain_validator_spec.2.2.2.2.1 ("") (by decide),
   C6_domain_validator_spec.2.2.2.2.2.1 ("localhost") (by decide) (Or.inr (by decide)),
   C6_domain_validator_spec.2.2.2.2.2.2 ("sub.domain.co.uk") (by decide) (by decide)
     (by decide)⟩

theorem getGeo_200_invalid (d : ProviderResp) (he : d.hasErrorKey = false)
    (hne : IpStackGeolocationService.missingFields d ≠ []) :
    IpStackGeolocationService.getGeolocationData 200 d =
      Except.error (LookupErr.invalidResp (IpStackGeolocationService.missingFields d)) := by
  simp [IpStackGeolocationService.getGeolocationData, he, hne]

/-- C8: a 200 provider response without its error envelope that lacks ip,
latitude or longitude makes the client raise the missing-required-fields
service error (never a NotFound classification, never a record), and every
non-success HTTP status raises a service error carrying that status. -/
theorem C8_provider_error_classification (status : Nat) (d : ProviderResp) :
    (status = 200 → d.hasErrorKey = false →
      (d.ip = none ∨ d.latitude = none ∨ d.longitude = none) →
      IpStackGeolocationService.getGeolocationData status d =
        Except.error (LookupErr.invalidResp (IpStackGeolocationService.missingFields d)) ∧
      IpStackGeolocationService.missingFields d ≠ []) ∧
    (status ≠ 200 →
      IpStackGeolocationService.getGeolocationData status d =
        Except.error (LookupErr.httpFail status)) := by
  constructor
  · intro hs he hmiss
    have hne : IpStackGeolocationService.missingFields d ≠ [] := by
      rcases hmiss with h | h | h
      · refine List.ne_nil_of_mem (a := "ip") ?_
        simp [IpStackGeolocationService.missingFields, List.mem_filter, getRequired,
              h, truthy]
      · refine List.ne_nil_of_mem (a := "latitude") ?_
        simp [IpStackGeolocationService.missingFields, List.mem_filter, getRequired,
              h, truthy]
      · refine List.ne_nil_of_mem (a := "longitude") ?_
        simp [IpStackGeolocationService.missingFields, List.mem_filter, getRequired,
              h, truthy]
    subst hs
    exact ⟨getGeo_200_invalid d he hne, hne⟩
  · intro hs
    simp [IpStackGeolocationService.getGeolocationData, hs]

/-- C8 witness: a 200 body with no ip field is rejected as invalid, and a
404 status raises the error carrying 404. -/
theorem C8_provider_error_classification_witness :
    (IpStackGeolocationService.getGeolocationData 200 respNoIp =
        Except.error
          (LookupErr.invalidResp (IpStackGeolocationService.missingFields respNoIp)) ∧
      IpStackGeolocationService.missingFields respNoIp ≠ []) ∧
    IpStackGeolocationService.getGeolocationData 404 respNoIp =
      Except.error (LookupErr.httpFail 404) :=
  ⟨(C8_provider_error_classification 200 respNoIp).1 rfl rfl (Or.inl rfl),
   (C8_provider_error_classification 404 respNoIp).2 (by decide)⟩

/-- C9 evaluation at the failing input: an unclassified exception (KeyError)
raised inside the upsert or update session is re-raised raw by the bare
raise, not wrapped into the StoreUnavailableError the docstring promises,
while a recognized connection error is wrapped. -/
theorem C9_raw_exception_leaks :
    IpGeolocationRepositoryImpl.upsert (some (PyExc.otherExc ("KeyError"))) dbT gT 5 =
      Except.error (Err.rawExc ("KeyError")) ∧
    IpGeolocationRepositoryImpl.update (some (PyExc.otherExc ("KeyError"))) dbT gT =
      Except.error (Err.rawExc ("KeyError")) ∧
    Err.rawExc ("KeyError") ≠ Err.dbUnavailable ∧
    IpGeolocationRepositoryImpl.upsert (some PyExc.connErr) dbT gT 5 =
      Except.error Err.dbUnavailable :=
  ⟨rfl, rfl, by decide, rfl⟩

/-- C10: the required-field validation tests Python truthiness, not
presence: a 200 response whose latitude or longitude is present but exactly
0, or whose ip is present but the empty string, is rejected with the
missing-required-fields service error instead of yielding a record. -/
theorem C10_truthiness_rejects_falsy (d : ProviderResp)
    (he : d.hasErrorKey = false)
    (hfalsy : d.latitude = some (JVal.jnum 0) ∨ d.longitude = some (JVal.jnum 0) ∨
      d.ip = some (JVal.jstr (""))) :
    IpStackGeolocationService.getGeolocationData 200 d =
      Except.error (LookupErr.invalidResp (IpStackGeolocationService.missingFields d)) ∧
    IpStackGeolocationService.missingFields d ≠ [] := by
  have hne : IpStackGeolocationService.missingFields d ≠ [] := by
    rcases hfalsy with h | h | h
    · refine List.ne_nil_of_mem (a := "latitude") ?_
      simp [IpStackGeolocationService.missingFields, List.mem_filter, getRequired,
            h, truthy]
    · refine List.ne_nil_of_mem (a := "longitude") ?_
      simp [IpStackGeolocationService.missingFields, List.mem_filter, getRequired,
            h, truthy]
    · refine List.ne_nil_of_mem (a := "ip") ?_
      simp [IpStackGeolocationService.missingFields, List.mem_filter, getRequired,
            h, truthy]
  exact ⟨getGeo_200_invalid d he hne, hne⟩

/-- C10 witness: a 200 body whose latitude is present and equal to 0 is
rejected as missing-required-fields. -/
theorem C10_truthiness_rejects_falsy_witness :
    respZeroLat.latitude = some (JVal.jnum 0) ∧
    (respZeroLat.latitude).isSome = true ∧
    IpStackGeolocationService.getGeolocationData 200 respZeroLat =
      Except.error
        (LookupErr.invalidResp (IpStackGeolocationService.missingFields respZeroLat)) ∧
    IpStackGeolocationService.missingFields respZeroLat ≠ [] :=
  ⟨rfl, rfl, (C10_truthiness_rejects_falsy respZeroLat rfl (Or.inl rfl)).1,
   (C10_truthiness_rejects_falsy respZeroLat rfl (Or.inl rfl)).2⟩
